import Mathlib

/-!
Shallow embedding of the Event-Ticketing-System backend (JavaScript/Express,
Mongoose models).  Each definition below translates one function or schema
hook of the repository; theorems settle the specification claims about them.

Conventions of the embedding:
* machine numbers are `Int`/`Nat`/`ℚ` (JS numbers used here are exact small
  integers or currency amounts);
* a JS falsy check `!x` on a number is `x = 0`, on an optional value it is
  `Option.isNone`;
* time is milliseconds since the epoch (`Int`); `Date.toDateString` equality
  is modelled as equality of an abstract calendar-day index;
* database state relevant to one handler call is passed explicitly and the
  updated documents are returned in the handler's result.
-/

namespace EventTicketing

/-! ## Event model (src/backend/models/Event.js, fields used by booking) -/

structure Event where
  price : ℚ
  availableTickets : Int
  status : String
  date : Int
  maxTicketsPerUser : Int
  discount : ℚ
  discountEndDate : Option Int
  currency : String
  deriving Repr, DecidableEq

/-- A booking request body `{ eventId, quantity }`.  `eventId = none` models a
missing/falsy id; `quantity = 0` is the falsy number. -/
structure BookingRequest where
  eventId : Option String
  quantity : Int
  deriving Repr, DecidableEq

/-- Result of a booking handler: HTTP status, response message, the post-state
of the targeted event document (`none` when the id matched no event), whether
a booking/ticket document was created, and the charged amount. -/
structure BookingOutcome where
  status : Nat
  message : String
  event : Option Event
  bookingCreated : Bool
  totalAmount : ℚ
  deriving Repr, DecidableEq

/-- `createBooking` (src/backend/controllers/bookingController.js, lines 5-29).
The guard `!eventId || !quantity || quantity < 1` rejects with 400
"Invalid input"; `Event.findOneAndUpdate({_id, availableTickets: {$gte: q}},
{$inc: {availableTickets: -q}})` performs the guarded decrement and returns
`null` (handled as 400 "Not enough tickets available") when either the id
matches no event or the availability guard fails. -/
def createBooking (req : BookingRequest) (ev : Option Event) : BookingOutcome :=
  if req.eventId.isNone ∨ req.quantity = 0 ∨ req.quantity < 1 then
    { status := 400, message := "Invalid input", event := ev,
      bookingCreated := false, totalAmount := 0 }
  else
    match ev with
    | none =>
        { status := 400, message := "Not enough tickets available", event := none,
          bookingCreated := false, totalAmount := 0 }
    | some e =>
        if req.quantity ≤ e.availableTickets then
          let e' := { e with availableTickets := e.availableTickets - req.quantity }
          { status := 201, message := "", event := some e',
            bookingCreated := true, totalAmount := e'.price * req.quantity }
        else
          { status := 400, message := "Not enough tickets available", event := some e,
            bookingCreated := false, totalAmount := 0 }

/-- JS `Math.round(x * 100) / 100` (round to two decimals, ties away from
zero for positives as `Math.round` does: `floor(y + 1/2)`). -/
def jsRound2 (x : ℚ) : ℚ := (⌊x * 100 + 1 / 2⌋ : ℚ) / 100

/-- `bookTickets` (src/backend/controllers/ticketController.js, lines 9-124).
Checks in source order: missing `eventId`/falsy `quantity`; the 1..10
quantity bound; event lookup; `status === "published"`; future date;
availability; the per-user cap (`existingBookings` is the count the handler
queries); then the discounted, 2-decimal-rounded amount, ticket creation and
the availability decrement inside the transaction. -/
def bookTickets (req : BookingRequest) (ev : Option Event)
    (now : Int) (existingBookings : Int) : BookingOutcome :=
  if req.eventId.isNone ∨ req.quantity = 0 then
    { status := 400, message := "Event ID and quantity are required", event := ev,
      bookingCreated := false, totalAmount := 0 }
  else if req.quantity < 1 ∨ 10 < req.quantity then
    { status := 400, message := "Quantity must be between 1 and 10", event := ev,
      bookingCreated := false, totalAmount := 0 }
  else
    match ev with
    | none =>
        { status := 400, message := "Event not found", event := none,
          bookingCreated := false, totalAmount := 0 }
    | some e =>
        if e.status ≠ "published" then
          { status := 400, message := "Event is not available for booking", event := some e,
            bookingCreated := false, totalAmount := 0 }
        else if e.date ≤ now then
          { status := 400, message := "Cannot book tickets for past events", event := some e,
            bookingCreated := false, totalAmount := 0 }
        else if e.availableTickets < req.quantity then
          { status := 400,
            message := "Only " ++ toString e.availableTickets ++ " tickets available",
            event := some e, bookingCreated := false, totalAmount := 0 }
        else if e.maxTicketsPerUser < existingBookings + req.quantity then
          { status := 400,
            message := "You can only book up to " ++ toString e.maxTicketsPerUser
              ++ " tickets for this event",
            event := some e, bookingCreated := false, totalAmount := 0 }
        else
          let base := e.price * req.quantity
          let discountEnd := e.discountEndDate.getD e.date
          let amount :=
            if 0 < e.discount ∧ now < discountEnd then
              base * (1 - e.discount / 100)
            else base
          { status := 201, message := "Tickets booked successfully",
            event := some { e with availableTickets := e.availableTickets - req.quantity },
            bookingCreated := true, totalAmount := jsRound2 amount }

/-! ## Ticket generator (src/backend/utils/ticketGenerator.js) -/

/-- The base64 alphabet used by `Buffer.toString('base64')`. -/
def b64Chars : List Char :=
  "ABCDEFGHIJKLMNOPQRSTUVWXYZabcdefghijklmnopqrstuvwxyz0123456789+/".toList

def b64Char (n : Nat) : Char := b64Chars.getD n 'A'

/-- Standard base64 of a byte sequence (as `Buffer.from(data).toString('base64')`
produces, with `=` padding). -/
def encodeBase64 : List Nat → List Char
  | [] => []
  | [a] => [b64Char (a / 4), b64Char (a % 4 * 16), '=', '=']
  | [a, b] => [b64Char (a / 4), b64Char (a % 4 * 16 + b / 16), b64Char (b % 16 * 4), '=']
  | a :: b :: c :: rest =>
      b64Char (a / 4) :: b64Char (a % 4 * 16 + b / 16) ::
      b64Char (b % 16 * 4 + c / 64) :: b64Char (c % 64) :: encodeBase64 rest

/-- `TicketGenerator.generateSignature` (ticketGenerator.js, lines 480-483):
base64 of the UTF-8 bytes of
`ticketNumber + "-" + eventId + "-" + userId + "-" + Date.now()`,
truncated to its first 16 characters.  Byte 45 is the hyphen; `nowDigits`
are the decimal digit bytes of the `Date.now()` timestamp. -/
def generateSignature (ticketNumber eventId userId nowDigits : List Nat) : List Char :=
  (encodeBase64 (ticketNumber ++ [45] ++ eventId ++ [45] ++ userId ++ [45] ++ nowDigits)).take 16

/-- The JSON object embedded in the QR code by
`TicketGenerator.generateQRCode` (ticketGenerator.js, lines 17-50). -/
structure QRPayload where
  ticketNumber : List Nat
  eventId : List Nat
  userId : List Nat
  timestamp : List Nat
  signature : List Char
  deriving Repr, DecidableEq

/-- The fields of a ticket document (src/unnamed/part_003-style Ticket model)
consumed by QR generation and entry validation.  Byte lists are the UTF-8
bytes of the corresponding string fields; `eventDay` is the calendar day of
`ticket.eventId.date` (the `toDateString` equivalence class); `startMs` and
`endMs` are the epoch milliseconds of the event's start and end times. -/
structure EntryTicket where
  ticketNumber : List Nat
  eventIdBytes : List Nat
  userIdBytes : List Nat
  status : String
  isVerified : Bool
  eventDay : Int
  startMs : Int
  endMs : Int
  deriving Repr, DecidableEq

/-- `TicketGenerator.generateQRCode` payload construction (ticketGenerator.js,
lines 19-25): the QR data embeds the ticket's identifiers, the generation
timestamp and `generateSignature` of the ticket at that moment. -/
def generateQRCode (t : EntryTicket) (nowDigits : List Nat) : QRPayload :=
  { ticketNumber := t.ticketNumber
    eventId := t.eventIdBytes
    userId := t.userIdBytes
    timestamp := nowDigits
    signature := generateSignature t.ticketNumber t.eventIdBytes t.userIdBytes nowDigits }

/-- Ticket numbers produced by `generateTicketNumber`
(Ticket model, src/unnamed/part_006, lines 141-154):
`"TKT"` + last 8 digits of `Date.now()` + 4 random base-36 characters.
Bytes 84, 75, 84 are `T`, `K`, `T`. -/
def mkTicketNumber (stamp8 rand4 : List Nat) : List Nat :=
  [84, 75, 84] ++ stamp8 ++ rand4

/-! ## Entry validation (src/backend/controllers/ticketController.js) -/

/-- Result record built by `validateTicketForEntry`
(ticketController.js, lines 1296-1387). -/
structure EntryResult where
  isValid : Bool
  canEnter : Bool
  reason : String
  deriving Repr, DecidableEq

/-- `validateTicketForEntry` (ticketController.js, lines 1296-1387) with the
time-window bounds taken as parsed start/end instants — the checks as their
code, reasons and the spec describe them.  Checks in source order: confirmed
status, not already verified, event is today, now at least two hours before
start (7200000 ms), now at most two hours after end, and — when QR data with
a signature was scanned — the scanned signature must equal
`generateSignature` recomputed on the ticket at scan time (`scanDigits` are
the digits of that later `Date.now()`).  NOTE: as executed the source never
obtains such instants — its bound computation
`new Date(ticket.eventId.date + " " + startTime)` yields Invalid Date, so
the two window comparisons are dead; `validateTicketForEntryRuntime` below
models that as-executed behavior.  This intended-semantics version is used
only on inputs where the two models agree (the window checks passing). -/
def validateTicketForEntry (t : EntryTicket) (todayDay : Int) (nowMs : Int)
    (scanDigits : List Nat) (qrSignature : Option (List Char)) : EntryResult :=
  if t.status ≠ "confirmed" then
    { isValid := false, canEnter := false, reason := "Ticket status is " ++ t.status }
  else if t.isVerified then
    { isValid := false, canEnter := false, reason := "Ticket has already been used" }
  else if t.eventDay ≠ todayDay then
    { isValid := false, canEnter := false, reason := "Event is not today" }
  else if nowMs < t.startMs - 7200000 then
    { isValid := false, canEnter := false, reason := "Event has not started yet" }
  else if t.endMs + 7200000 < nowMs then
    { isValid := false, canEnter := false, reason := "Event has ended" }
  else
    match qrSignature with
    | some sig =>
        if sig ≠ generateSignature t.ticketNumber t.eventIdBytes t.userIdBytes scanDigits then
          { isValid := false, canEnter := false, reason := "Invalid QR code signature" }
        else
          { isValid := true, canEnter := true, reason := "Ticket is valid for entry" }
    | none =>
        { isValid := true, canEnter := true, reason := "Ticket is valid for entry" }

/-- The millisecond value of `new Date(ticket.eventId.date + " " + hhmm)`
(ticketController.js, lines 1333 and 1346).  In the scan path `eventId` is a
populated Event document whose `date` is a `Date` (Event.js schema), so the
`+` stringifies it to a full date-time rendering and appends " HH:MM" — a
form the JS date parser rejects.  The result is Invalid Date: no
milliseconds value (`none` models the NaN time value). -/
def jsParseDateTimeConcat (_hhmm : String) : Option Int := none

/-- `new Date(d.getTime() + ms)`: date arithmetic on a possibly-invalid
date; NaN propagates. -/
def jsDateShift (d : Option Int) (ms : Int) : Option Int := d.map (fun t => t + ms)

/-- JS `<` between date values (compared through `valueOf`): every
comparison against Invalid Date (NaN) is false. -/
def jsDateLt : Option Int → Option Int → Bool
  | some a, some b => decide (a < b)
  | _, _ => false

def entryInvalid (reason : String) : EntryResult :=
  { isValid := false, canEnter := false, reason := reason }

def entryValid : EntryResult :=
  { isValid := true, canEnter := true, reason := "Ticket is valid for entry" }

/-- `validateTicketForEntry` as it executes (ticketController.js, lines
1296-1387): the same short-circuiting checks, but with the window bounds
computed as the source computes them — `jsParseDateTimeConcat`, an Invalid
Date — so `now < twoHoursBefore` and `twoHoursAfter < now` are NaN
comparisons (`jsDateLt` with a `none` side) and never fire. -/
def validateTicketForEntryRuntime (t : EntryTicket) (startTime endTime : String)
    (todayDay : Int) (nowMs : Int) (scanDigits : List Nat)
    (qrSignature : Option (List Char)) : EntryResult :=
  if t.status ≠ "confirmed" then entryInvalid ("Ticket status is " ++ t.status)
  else if t.isVerified then entryInvalid "Ticket has already been used"
  else if t.eventDay ≠ todayDay then entryInvalid "Event is not today"
  else if jsDateLt (some nowMs)
      (jsDateShift (jsParseDateTimeConcat startTime) (-7200000)) then
    entryInvalid "Event has not started yet"
  else if jsDateLt (jsDateShift (jsParseDateTimeConcat endTime) 7200000)
      (some nowMs) then
    entryInvalid "Event has ended"
  else
    match qrSignature with
    | some sig =>
        if sig ≠ generateSignature t.ticketNumber t.eventIdBytes t.userIdBytes scanDigits then
          entryInvalid "Invalid QR code signature"
        else entryValid
    | none => entryValid

/-- The ticket fields checked by `TicketGenerator.validateTicketData`
(ticketGenerator.js, lines 505-534).  Strings are falsy when empty, numbers
when zero — `!ticketData[field]`. -/
structure TicketData where
  ticketNumber : String
  eventId : String
  userId : String
  quantity : Int
  totalAmount : ℚ
  deriving Repr, DecidableEq

structure ValidationResult where
  isValid : Bool
  errors : Option String
  deriving Repr, DecidableEq

/-- `missing.join(', ')`. -/
def joinComma : List String → String
  | [] => ""
  | [s] => s
  | s :: rest => s ++ ", " ++ joinComma rest

/-- `required.filter(field => !ticketData[field])` of `validateTicketData`:
the falsy required fields, in source order. -/
def missingFields (d : TicketData) : List String :=
  (if d.ticketNumber = "" then ["ticketNumber"] else []) ++
  (if d.eventId = "" then ["eventId"] else []) ++
  (if d.userId = "" then ["userId"] else []) ++
  (if d.quantity = 0 then ["quantity"] else []) ++
  (if d.totalAmount = 0 then ["totalAmount"] else [])

/-- `TicketGenerator.validateTicketData` (ticketGenerator.js, lines 505-534):
first the falsy-field scan over the five required fields (in source order),
then the 1..10 quantity bound, then non-negative total. -/
def validateTicketData (d : TicketData) : ValidationResult :=
  let missing := missingFields d
  if missing ≠ [] then
    { isValid := false, errors := some ("Missing required fields: " ++ joinComma missing) }
  else if d.quantity < 1 ∨ 10 < d.quantity then
    { isValid := false, errors := some "Quantity must be between 1 and 10" }
  else if d.totalAmount < 0 then
    { isValid := false, errors := some "Total amount cannot be negative" }
  else
    { isValid := true, errors := none }

/-! ## VerificationLog model (src/unnamed/part_004) -/

/-- `hay` starts with `needle`. -/
def startsWithList : List Char → List Char → Bool
  | _, [] => true
  | [], _ :: _ => false
  | a :: as, b :: bs => a = b && startsWithList as bs

/-- `needle` occurs as a contiguous run inside the second list. -/
def containsSubList (needle : List Char) : List Char → Bool
  | [] => startsWithList [] needle
  | a :: t => startsWithList (a :: t) needle || containsSubList needle t

/-- JS `s.includes(sub)`. -/
def strIncludes (s sub : String) : Bool := containsSubList sub.toList s.toList

structure VerificationResult where
  isValid : Bool
  canEnter : Bool
  reason : String
  deriving Repr, DecidableEq

structure VFlags where
  isSuspicious : Bool
  suspiciousReasons : List String
  riskScore : Int
  deriving Repr, DecidableEq

structure VRateLimit where
  attemptsInWindow : Int
  windowStart : Int
  deriving Repr, DecidableEq

/-- The fields of a `VerificationLog` document read or written by its
pre-save hook and methods (src/unnamed/part_004).  `verificationHour` is
`this.verificationTime.getHours()`; `hasCoordinates` is the truthiness of
`this.location && this.location.coordinates`. -/
structure VerificationLog where
  verificationResult : VerificationResult
  verificationHour : Int
  hasCoordinates : Bool
  flags : VFlags
  rateLimit : VRateLimit
  deriving Repr, DecidableEq

/-- The uncapped fixed-weight risk sum accumulated by the pre-save hook of
`verificationLogSchema` (part_004, lines 162-181), one addend per source
`if`. -/
def riskSum (log : VerificationLog) : Int :=
  (if !log.verificationResult.isValid then 20 else 0) +
  (if strIncludes log.verificationResult.reason "signature" then 30 else 0) +
  (if strIncludes log.verificationResult.reason "not found" then 25 else 0) +
  (if log.verificationHour < 6 ∨ 22 < log.verificationHour then 15 else 0) +
  (if 10 < log.rateLimit.attemptsInWindow then 20 else 0) +
  (if log.hasCoordinates then 5 else 0)

/-- `verificationLogSchema.pre("save")` (part_004, lines 161-192): the
fixed-weight risk sum, capped at 100 (`Math.min(riskScore, 100)`), and the
suspicious marking above 70. -/
def vlogPreSave (log : VerificationLog) : VerificationLog :=
  let rs := min (riskSum log) 100
  { log with flags := { log.flags with
      riskScore := rs,
      isSuspicious := if 70 < rs then true else log.flags.isSuspicious } }

/-- The in-memory part of `addSuspiciousFlag` (part_004, lines 195-208):
push the reason if new, add 20 capped at 100, mark suspicious above 70. -/
def addSuspiciousFlagStep (log : VerificationLog) (reason : String) : VerificationLog :=
  let reasons :=
    if log.flags.suspiciousReasons.contains reason then log.flags.suspiciousReasons
    else log.flags.suspiciousReasons ++ [reason]
  let rs := min (log.flags.riskScore + 20) 100
  { log with flags := { log.flags with
      suspiciousReasons := reasons,
      riskScore := rs,
      isSuspicious := if 70 < rs then true else log.flags.isSuspicious } }

/-- `addSuspiciousFlag` ends in `this.save()`, which runs the pre-save hook
again, so the persisted document is `vlogPreSave` of the stepped one. -/
def addSuspiciousFlag (log : VerificationLog) (reason : String) : VerificationLog :=
  vlogPreSave (addSuspiciousFlagStep log reason)

/-- The in-memory part of `updateRateLimit` (part_004, lines 211-225) with
the default 15-minute window (900000 ms): reset the window when the stored
`windowStart` is older than `now - windowSize`, else increment. -/
def updateRateLimit (log : VerificationLog) (now : Int)
    (windowSize : Int := 900000) : VerificationLog :=
  if log.rateLimit.windowStart < now - windowSize then
    { log with rateLimit := { attemptsInWindow := 1, windowStart := now } }
  else
    { log with rateLimit := { log.rateLimit with
        attemptsInWindow := log.rateLimit.attemptsInWindow + 1 } }

/-- The per-attempt data `logVerificationAttempt` receives. -/
structure LogAttemptData where
  verificationResult : VerificationResult
  hour : Int
  hasCoordinates : Bool
  deriving Repr, DecidableEq

/-- `new VerificationLog({...})` (ticketController.js, lines 1393-1405) with
the schema defaults of part_004: `flags.riskScore = 0`, `isSuspicious =
false`, no reasons, `rateLimit.attemptsInWindow = 1`,
`rateLimit.windowStart = Date.now()`. -/
def newVerificationLog (d : LogAttemptData) (now : Int) : VerificationLog :=
  { verificationResult := d.verificationResult
    verificationHour := d.hour
    hasCoordinates := d.hasCoordinates
    flags := { isSuspicious := false, suspiciousReasons := [], riskScore := 0 }
    rateLimit := { attemptsInWindow := 1, windowStart := now } }

/-- `logVerificationAttempt` (ticketController.js, lines 1390-1429): create a
fresh log, `updateRateLimit()` (whose `this.save()` runs the pre-save hook),
`save()` (pre-save again), then the conditional suspicious flags, the rate
flag being added when `rateLimit.attemptsInWindow > 10`. -/
def logVerificationAttempt (d : LogAttemptData) (now : Int) : VerificationLog :=
  let log0 := newVerificationLog d now
  let log1 := vlogPreSave (updateRateLimit log0 now)
  let log2 := vlogPreSave log1
  let log3 :=
    if strIncludes d.verificationResult.reason "signature" then
      addSuspiciousFlag log2 "signature_mismatch"
    else log2
  let log4 :=
    if strIncludes d.verificationResult.reason "not found" then
      addSuspiciousFlag log3 "multiple_failed_attempts"
    else log3
  if 10 < log4.rateLimit.attemptsInWindow then
    addSuspiciousFlag log4 "rate_limit_exceeded"
  else log4

/-! ## Payment simulation (src/backend/controllers/paymentController.js,
src/backend/utils/paymentGateways.js) -/

/-- `simulatePaymentProcessing` (paymentController.js, lines 483-489):
`return Math.random() > 0.1`.  The `Math.random()` draw (a value in `[0,1)`)
is made an explicit input; the token and amount are received but ignored,
exactly as in the source. -/
def simulatePaymentProcessing (_paymentToken : String) (_amount : ℚ) (draw : ℚ) : Bool :=
  decide (1 / 10 < draw)

structure StripeConfirmResult where
  success : Bool
  id : String
  status : String
  amountReceived : Int
  paymentMethod : String
  deriving Repr, DecidableEq

/-- `StripeGateway.confirmPayment` (paymentGateways.js, lines 43-68): the
simulated response is the hard-coded object `{ id, status: 'succeeded',
amount_received: 1000, payment_method }` wrapped in `success: true`; no
random draw is consumed (the `draw` input is there to express the claim and
is unused, as the source consumes none). -/
def stripeConfirmPayment (paymentIntentId paymentMethodId : String)
    (_draw : ℚ) : StripeConfirmResult :=
  { success := true
    id := paymentIntentId
    status := "succeeded"
    amountReceived := 1000
    paymentMethod := paymentMethodId }

structure PaymentResponse where
  status : Nat
  success : Bool
  message : String
  deriving Repr, DecidableEq

/-- The outcome branch of `processPayment` (paymentController.js, lines
134-212), from the pending-status check through the simulated gateway call:
success marks the payment completed and answers 200, failure answers 400
"Payment processing failed". -/
def processPayment (paymentStatus : String) (paymentToken : String)
    (amount : ℚ) (draw : ℚ) : PaymentResponse :=
  if paymentStatus ≠ "pending" then
    { status := 400, success := false, message := "Payment is not pending" }
  else if simulatePaymentProcessing paymentToken amount draw then
    { status := 200, success := true, message := "Payment processed successfully" }
  else
    { status := 400, success := false, message := "Payment processing failed" }

/-! ## Event-ticket statistics (src/backend/controllers/ticketController.js,
`getEventTickets`, lines 322-378) -/

/-- The ticket fields the `getEventTickets` aggregation reads. -/
structure TicketRec where
  eventId : String
  status : String
  totalAmount : ℚ
  bookingDate : Int
  deriving Repr, DecidableEq

/-- One step of the `$group` stage `{ _id: "$status", count: { $sum: 1 },
totalAmount: { $sum: "$totalAmount" } }`: route a ticket into its status
group, appending a new group when the status is new. -/
def addToGroups : List (String × Nat × ℚ) → TicketRec → List (String × Nat × ℚ)
  | [], t => [(t.status, 1, t.totalAmount)]
  | (s, c, a) :: rest, t =>
      if s = t.status then (s, c + 1, a + t.totalAmount) :: rest
      else (s, c, a) :: addToGroups rest t

/-- The stats pipeline of `getEventTickets` (lines 357-366):
`$match` on the event id over the whole ticket collection, then `$group` by
status summing 1 and `totalAmount`. -/
def ticketStats (tickets : List TicketRec) (eid : String) : List (String × Nat × ℚ) :=
  (tickets.filter (fun t => t.eventId = eid)).foldl addToGroups []

structure EventTicketsResponse where
  data : List TicketRec
  stats : List (String × Nat × ℚ)
  deriving Repr, DecidableEq

/-- `getEventTickets` (lines 322-378): the page is built from the event's
tickets after the optional status query filter with `skip`/`limit`
pagination (the `bookingDate` sort only permutes the page and is omitted),
while `stats` is the aggregation over every ticket of the event. -/
def getEventTickets (tickets : List TicketRec) (eid : String)
    (statusQ : Option String) (page limit : Nat) : EventTicketsResponse :=
  let filtered := tickets.filter (fun t =>
    t.eventId = eid ∧ (∀ s ∈ statusQ, t.status = s))
  { data := (filtered.drop ((page - 1) * limit)).take limit
    stats := ticketStats tickets eid }

/-! ## Observation helpers and sample data for witnesses -/

def sampleEvent : Event :=
  { price := 10, availableTickets := 5, status := "published", date := 5000,
    maxTicketsPerUser := 10, discount := 0, discountEndDate := none, currency := "USD" }

/-- Association lookup in the grouped stats: the entry reported for a given
status. -/
def lookupG : List (String × Nat × ℚ) → String → Option (Nat × ℚ)
  | [], _ => none
  | (s, c, a) :: rest, q => if s = q then some (c, a) else lookupG rest q

/-- The number of tickets in `l` with status `s`. -/
def statusCount (l : List TicketRec) (s : String) : Nat :=
  (l.filter (fun t => t.status = s)).length

/-- The sum of `totalAmount` over the tickets in `l` with status `s`. -/
def statusSum (l : List TicketRec) (s : String) : ℚ :=
  ((l.filter (fun t => t.status = s)).map (fun t => t.totalAmount)).sum

/-- A concrete log for witnesses: invalid result with a "signature" reason,
3 a.m. verification, coordinates present, default flags and rate limit. -/
def sampleLog : VerificationLog :=
  { verificationResult :=
      { isValid := false, canEnter := false, reason := "Invalid QR code signature" }
    verificationHour := 3
    hasCoordinates := true
    flags := { isSuspicious := false, suspiciousReasons := [], riskScore := 0 }
    rateLimit := { attemptsInWindow := 1, windowStart := 0 } }

/-- The attempt data of a valid scan, used by the C6 counterexample. -/
def cexAttempt : LogAttemptData :=
  { verificationResult :=
      { isValid := true, canEnter := true, reason := "Ticket is valid for entry" }
    hour := 12
    hasCoordinates := false }

/-- The event of the C8 counterexample: plenty of tickets, published, in the
future, no discount. -/
def cexEvent : Event :=
  { price := 50, availableTickets := 20, status := "published", date := 2000,
    maxTicketsPerUser := 100, discount := 0, discountEndDate := none, currency := "USD" }

/-- A confirmed, unused ticket for an event on day 7 with a noon-to-2pm
window, for the C3 witness. -/
def sampleScanTicket : EntryTicket :=
  { ticketNumber := [], eventIdBytes := [], userIdBytes := [], status := "confirmed",
    isVerified := false, eventDay := 7, startMs := 43200000, endMs := 50400000 }

def cexTicketData : TicketData :=
  { ticketNumber := "TKT12345678ABCD", eventId := "e1", userId := "u1",
    quantity := 0, totalAmount := 10 }


/-! ## C1 -/

/-- C1: for every `createBooking` request with a valid `eventId` (one that
matches an event) and `quantity ≥ 1`, the booking is created and the event's
`availableTickets` is decremented by exactly `quantity` if and only if
`availableTickets ≥ quantity` held at the guarded update; otherwise the
handler responds 400 "Not enough tickets available" with `availableTickets`
unchanged, so `availableTickets` never becomes negative through booking. -/
theorem createBooking_guarded_decrement (req : BookingRequest) (e : Event)
    (hid : req.eventId.isSome) (hq : 1 ≤ req.quantity) :
    ((createBooking req (some e)).bookingCreated = true ∧
      (createBooking req (some e)).event =
        some { e with availableTickets := e.availableTickets - req.quantity } ∧
      (createBooking req (some e)).status = 201
     ↔ req.quantity ≤ e.availableTickets) ∧
    (e.availableTickets < req.quantity →
      (createBooking req (some e)).status = 400 ∧
      (createBooking req (some e)).message = "Not enough tickets available" ∧
      (createBooking req (some e)).bookingCreated = false ∧
      (createBooking req (some e)).event = some e) ∧
    (0 ≤ e.availableTickets →
      ∀ e', (createBooking req (some e)).event = some e' → 0 ≤ e'.availableTickets) := by
  have hguard : ¬(req.eventId.isNone ∨ req.quantity = 0 ∨ req.quantity < 1) := by
    intro hcon
    rcases hcon with h | h | h
    · rw [Option.isNone_iff_eq_none] at h
      rw [h] at hid
      simp at hid
    · omega
    · omega
  unfold createBooking
  rw [if_neg hguard]
  by_cases hle : req.quantity ≤ e.availableTickets
  · simp only [hle, if_pos]
    refine ⟨?_, ?_, ?_⟩
    · simp [hle]
    · intro hlt; omega
    · intro hnn e' he'
      simp only [Option.some.injEq] at he'
      subst he'
      simp only []
      omega
  · simp only [hle, if_neg, if_false]
    refine ⟨?_, ?_, ?_⟩
    · simp [hle]
    · intro _; simp
    · intro hnn e' he'
      simp only [Option.some.injEq] at he'
      subst he'
      exact hnn

/-- Witness for C1 at a concrete request: two of five tickets are granted and
the availability drops to three. -/
theorem createBooking_guarded_decrement_witness :
    (createBooking { eventId := some "ev1", quantity := 2 } (some sampleEvent)).event =
      some { sampleEvent with availableTickets := 3 } := by
  have h := createBooking_guarded_decrement { eventId := some "ev1", quantity := 2 }
    sampleEvent (by decide) (by decide)
  have h2 := (h.1).mpr (by decide)
  have h3 := h2.2.1
  rw [h3]
  decide

/-! ## C3 -/

/-- C3 (code bug): the claimed ±2-hour window gating is dead
code as executed.  For every confirmed, unused, same-day ticket, the runtime
validation grants entry at ANY scan instant (first conjunct), and the
"Event has not started yet" / "Event has ended" outcomes are unreachable for
any scan time and any scanned signature (second conjunct): both window
bounds are Invalid Dates, so the NaN comparisons never fire.  The claim's
status/unused/same-day gating, its reasons and its check order are the first
three short-circuiting checks and do hold. -/
theorem validateTicketForEntry_window_checks_dead (t : EntryTicket)
    (startTime endTime : String) (today : Int) (scanDigits : List Nat)
    (hst : t.status = "confirmed") (hv : t.isVerified = false)
    (hd : t.eventDay = today) :
    (∀ nowMs : Int,
      (validateTicketForEntryRuntime t startTime endTime today nowMs scanDigits
        none).canEnter = true) ∧
    (∀ (nowMs : Int) (qrSig : Option (List Char)),
      (validateTicketForEntryRuntime t startTime endTime today nowMs scanDigits
        qrSig).reason ≠ "Event has not started yet" ∧
      (validateTicketForEntryRuntime t startTime endTime today nowMs scanDigits
        qrSig).reason ≠ "Event has ended") := by
  have hlt1 : ∀ nowMs : Int,
      jsDateLt (some nowMs) (jsDateShift (jsParseDateTimeConcat startTime) (-7200000)) =
        false := by
    intro nowMs
    rfl
  have hlt2 : ∀ nowMs : Int,
      jsDateLt (jsDateShift (jsParseDateTimeConcat endTime) 7200000) (some nowMs) =
        false := by
    intro nowMs
    rfl
  constructor
  · intro nowMs
    unfold validateTicketForEntryRuntime
    rw [if_neg (by simp [hst]), if_neg (by simp [hv]), if_neg (by simp [hd]),
      if_neg (by simp [hlt1]), if_neg (by simp [hlt2])]
    rfl
  · intro nowMs qrSig
    unfold validateTicketForEntryRuntime
    rw [if_neg (by simp [hst]), if_neg (by simp [hv]), if_neg (by simp [hd]),
      if_neg (by simp [hlt1]), if_neg (by simp [hlt2])]
    have hcase :
        (match qrSig with
          | some sig =>
              if sig ≠ generateSignature t.ticketNumber t.eventIdBytes t.userIdBytes
                  scanDigits then
                entryInvalid "Invalid QR code signature"
              else entryValid
          | none => entryValid) = entryInvalid "Invalid QR code signature" ∨
        (match qrSig with
          | some sig =>
              if sig ≠ generateSignature t.ticketNumber t.eventIdBytes t.userIdBytes
                  scanDigits then
                entryInvalid "Invalid QR code signature"
              else entryValid
          | none => entryValid) = entryValid := by
      rcases qrSig with _ | sig
      · exact Or.inr rfl
      · by_cases hs : sig ≠ generateSignature t.ticketNumber t.eventIdBytes t.userIdBytes
            scanDigits
        · exact Or.inl (if_pos hs)
        · exact Or.inr (if_neg hs)
    rcases hcase with h | h <;> rw [h] <;> exact ⟨by decide, by decide⟩

/-- Witness for C3: a confirmed, unused ticket for an event today with a
noon-to-2pm window is granted entry when scanned at an arbitrary instant far
outside the window. -/
theorem validateTicketForEntry_window_checks_dead_witness :
    (validateTicketForEntryRuntime sampleScanTicket "12:00" "14:00" 7 999999999999 []
      none).canEnter = true :=
  (validateTicketForEntry_window_checks_dead sampleScanTicket "12:00" "14:00" 7 []
    rfl rfl rfl).1 999999999999

/-! ## C2 -/

theorem encodeBase64_cons3 (a b c : Nat) (rest : List Nat) :
    encodeBase64 (a :: b :: c :: rest) =
      b64Char (a / 4) :: b64Char (a % 4 * 16 + b / 16) ::
      b64Char (b % 16 * 4 + c / 64) :: b64Char (c % 64) :: encodeBase64 rest := by
  rfl

theorem take_add_four (x1 x2 x3 x4 : Char) (xs : List Char) (n : Nat) :
    (x1 :: x2 :: x3 :: x4 :: xs).take (n + 4) = x1 :: x2 :: x3 :: x4 :: xs.take n := by
  have h : n + 4 = n + 1 + 1 + 1 + 1 := by omega
  rw [h]
  simp [List.take_succ_cons]

/-- The first `4k` base64 characters depend only on the first `3k` input
bytes: this is what makes `generateSignature`'s 16-character truncation
insensitive to everything after the twelfth byte. -/
theorem take_encodeBase64_prefix (k : Nat) :
    ∀ (l r r' : List Nat), 3 * k ≤ l.length →
      (encodeBase64 (l ++ r)).take (4 * k) = (encodeBase64 (l ++ r')).take (4 * k) := by
  induction k with
  | zero => intro l r r' _; simp
  | succ k ih =>
    intro l r r' h
    rcases l with _ | ⟨a, _ | ⟨b, _ | ⟨c, l'⟩⟩⟩
    · simp at h
    · simp at h; omega
    · simp at h; omega
    · have hlen : 3 * k ≤ l'.length := by
        simp only [List.length_cons] at h; omega
      have h4 : 4 * (k + 1) = 4 * k + 4 := by ring
      calc (encodeBase64 ((a :: b :: c :: l') ++ r)).take (4 * (k + 1))
          = (encodeBase64 (a :: b :: c :: (l' ++ r))).take (4 * k + 4) := by
            rw [h4]; rfl
        _ = b64Char (a / 4) :: b64Char (a % 4 * 16 + b / 16) ::
            b64Char (b % 16 * 4 + c / 64) :: b64Char (c % 64) ::
            (encodeBase64 (l' ++ r)).take (4 * k) := by
            rw [encodeBase64_cons3, take_add_four]
        _ = b64Char (a / 4) :: b64Char (a % 4 * 16 + b / 16) ::
            b64Char (b % 16 * 4 + c / 64) :: b64Char (c % 64) ::
            (encodeBase64 (l' ++ r')).take (4 * k) := by
            rw [ih l' r r' hlen]
        _ = (encodeBase64 ((a :: b :: c :: l') ++ r')).take (4 * (k + 1)) := by
            rw [h4]
            simp only [List.cons_append]
            rw [encodeBase64_cons3, take_add_four]

/-- Signatures of the same ticket identifiers agree no matter which
`Date.now()` value (or even which id byte renderings) follow the ticket
number, as long as the ticket number itself is at least twelve bytes. -/
theorem generateSignature_time_independent (tn ev us d ev' us' d' : List Nat)
    (h : 12 ≤ tn.length) :
    generateSignature tn ev us d = generateSignature tn ev' us' d' := by
  unfold generateSignature
  have h16 : (16 : Nat) = 4 * 4 := by norm_num
  rw [h16]
  have hassoc : ∀ (x y z w : List Nat),
      tn ++ [45] ++ x ++ [45] ++ y ++ [45] ++ z = tn ++ ([45] ++ x ++ [45] ++ y ++ [45] ++ z) := by
    intro x y z _; simp [List.append_assoc]
  rw [hassoc ev us d ev, hassoc ev' us' d' ev]
  exact take_encodeBase64_prefix 4 tn _ _ (by omega)

/-- C2: a QR payload produced by `generateQRCode` passes the
signature-comparison step of `validateTicketForEntry` when later scanned:
for any ticket whose number has the `generateTicketNumber` shape
(`"TKT"` + 8 digits + 4 characters), the signature recomputed at scan time
equals the embedded one, and a scan that reaches the signature check
succeeds. -/
theorem generateQRCode_validate_roundtrip (t : EntryTicket)
    (stamp8 rand4 genDigits scanDigits : List Nat) (today now : Int)
    (htn : t.ticketNumber = mkTicketNumber stamp8 rand4)
    (hs : stamp8.length = 8) (hr : rand4.length = 4) :
    (generateQRCode t genDigits).signature =
      generateSignature t.ticketNumber t.eventIdBytes t.userIdBytes scanDigits ∧
    (t.status = "confirmed" → t.isVerified = false → t.eventDay = today →
      t.startMs - 7200000 ≤ now → now ≤ t.endMs + 7200000 →
      validateTicketForEntry t today now scanDigits
          (some (generateQRCode t genDigits).signature) =
        { isValid := true, canEnter := true, reason := "Ticket is valid for entry" }) := by
  have hlen : 12 ≤ t.ticketNumber.length := by
    rw [htn]
    simp [mkTicketNumber, hs, hr]
  have hsig : (generateQRCode t genDigits).signature =
      generateSignature t.ticketNumber t.eventIdBytes t.userIdBytes scanDigits := by
    show generateSignature t.ticketNumber t.eventIdBytes t.userIdBytes genDigits = _
    exact generateSignature_time_independent _ _ _ _ _ _ _ hlen
  refine ⟨hsig, fun hst hv hd hle hge => ?_⟩
  unfold validateTicketForEntry
  rw [if_neg (by simp [hst]), if_neg (by simp [hv]), if_neg (by simp [hd]),
    if_neg (by omega), if_neg (by omega)]
  simp [hsig]

/-- Witness for C2: a concrete ticket number `TKT12345678ABCD`, generation
timestamp digits `1` and scan timestamp digits `20`, where the embedded and
recomputed signatures coincide. -/
theorem generateQRCode_validate_roundtrip_witness :
    (generateQRCode
        { ticketNumber := mkTicketNumber [49, 50, 51, 52, 53, 54, 55, 56] [65, 66, 67, 68],
          eventIdBytes := [101, 49], userIdBytes := [117, 49], status := "confirmed",
          isVerified := false, eventDay := 3, startMs := 0, endMs := 0 } [49]).signature =
      generateSignature
        (mkTicketNumber [49, 50, 51, 52, 53, 54, 55, 56] [65, 66, 67, 68])
        [101, 49] [117, 49] [50, 48] :=
  (generateQRCode_validate_roundtrip
    { ticketNumber := mkTicketNumber [49, 50, 51, 52, 53, 54, 55, 56] [65, 66, 67, 68],
      eventIdBytes := [101, 49], userIdBytes := [117, 49], status := "confirmed",
      isVerified := false, eventDay := 3, startMs := 0, endMs := 0 }
    [49, 50, 51, 52, 53, 54, 55, 56] [65, 66, 67, 68] [49] [50, 48] 3 0
    rfl rfl rfl).1

/-! ## C4 -/

theorem riskSum_nonneg (log : VerificationLog) : 0 ≤ riskSum log := by
  unfold riskSum
  split_ifs <;> omega

/-- C4: on every save of a `VerificationLog`, `flags.riskScore` equals
`min(100, S)` where `S` is the fixed-weight sum of the six claimed factors
(20 for invalid, 30 for a "signature" reason, 25 for a "not found" reason,
15 for an hour before 6 or after 22, 20 for more than 10 attempts in the
window, 5 for present coordinates); two logs agreeing on those six factors
get the same score, so no other input affects it. -/
theorem vlogPreSave_riskScore_formula (log : VerificationLog) :
    (vlogPreSave log).flags.riskScore =
      min 100
        ((if log.verificationResult.isValid = false then 20 else 0) +
         (if strIncludes log.verificationResult.reason "signature" then 30 else 0) +
         (if strIncludes log.verificationResult.reason "not found" then 25 else 0) +
         (if log.verificationHour < 6 ∨ 22 < log.verificationHour then 15 else 0) +
         (if 10 < log.rateLimit.attemptsInWindow then 20 else 0) +
         (if log.hasCoordinates then 5 else 0)) ∧
    (∀ log' : VerificationLog,
      log.verificationResult.isValid = log'.verificationResult.isValid →
      strIncludes log.verificationResult.reason "signature" =
        strIncludes log'.verificationResult.reason "signature" →
      strIncludes log.verificationResult.reason "not found" =
        strIncludes log'.verificationResult.reason "not found" →
      (log.verificationHour < 6 ∨ 22 < log.verificationHour ↔
        log'.verificationHour < 6 ∨ 22 < log'.verificationHour) →
      (10 < log.rateLimit.attemptsInWindow ↔ 10 < log'.rateLimit.attemptsInWindow) →
      log.hasCoordinates = log'.hasCoordinates →
      (vlogPreSave log).flags.riskScore = (vlogPreSave log').flags.riskScore) := by
  constructor
  · have h : (vlogPreSave log).flags.riskScore = min (riskSum log) 100 := rfl
    rw [h, min_comm]
    congr 1
    unfold riskSum
    simp [Bool.not_eq_true']
  · intro log' h1 h2 h3 h4 h5 h6
    have h : ∀ l : VerificationLog, (vlogPreSave l).flags.riskScore = min (riskSum l) 100 :=
      fun _ => rfl
    rw [h, h]
    congr 1
    unfold riskSum
    rw [h1, h2, h3, h6]
    congr 1
    · congr 1
      · congr 1
        exact if_congr h4 rfl rfl
      · exact if_congr h5 rfl rfl

/-- Witness for C4: the sample log scores min(100, 20+30+0+15+0+5) = 70. -/
theorem vlogPreSave_riskScore_formula_witness :
    (vlogPreSave sampleLog).flags.riskScore = 70 := by
  have h := (vlogPreSave_riskScore_formula sampleLog).1
  rw [h]
  decide

/-! ## C10 -/

theorem vlogPreSave_inv_aux (log : VerificationLog) :
    0 ≤ (vlogPreSave log).flags.riskScore ∧
    (vlogPreSave log).flags.riskScore ≤ 100 ∧
    (70 < (vlogPreSave log).flags.riskScore → (vlogPreSave log).flags.isSuspicious = true) ∧
    (log.flags.isSuspicious = true → (vlogPreSave log).flags.isSuspicious = true) := by
  have hrs : (vlogPreSave log).flags.riskScore = min (riskSum log) 100 := rfl
  have hsp : (vlogPreSave log).flags.isSuspicious =
      if 70 < min (riskSum log) 100 then true else log.flags.isSuspicious := rfl
  refine ⟨?_, ?_, ?_, ?_⟩
  · rw [hrs]; exact le_min (riskSum_nonneg log) (by norm_num)
  · rw [hrs]; exact min_le_right _ _
  · rw [hrs, hsp]; intro h; rw [if_pos h]
  · rw [hsp]; intro h; split <;> simp [h]

theorem addSuspiciousFlagStep_inv_aux (log : VerificationLog) (reason : String)
    (h0 : 0 ≤ log.flags.riskScore) :
    0 ≤ (addSuspiciousFlagStep log reason).flags.riskScore ∧
    (addSuspiciousFlagStep log reason).flags.riskScore ≤ 100 ∧
    (70 < (addSuspiciousFlagStep log reason).flags.riskScore →
      (addSuspiciousFlagStep log reason).flags.isSuspicious = true) ∧
    (log.flags.isSuspicious = true →
      (addSuspiciousFlagStep log reason).flags.isSuspicious = true) := by
  have hrs : (addSuspiciousFlagStep log reason).flags.riskScore =
      min (log.flags.riskScore + 20) 100 := rfl
  have hsp : (addSuspiciousFlagStep log reason).flags.isSuspicious =
      if 70 < min (log.flags.riskScore + 20) 100 then true else log.flags.isSuspicious := rfl
  refine ⟨?_, ?_, ?_, ?_⟩
  · rw [hrs]; exact le_min (by omega) (by norm_num)
  · rw [hrs]; exact min_le_right _ _
  · rw [hrs, hsp]; intro h; rw [if_pos h]
  · rw [hsp]; intro h; split <;> simp [h]

/-- C10: starting from a log whose risk score is in 0..100 and whose
suspicious flag covers scores above 70, the pre-save risk computation, the
in-memory part of `addSuspiciousFlag`, and full `addSuspiciousFlag` (whose
`save()` reruns the pre-save hook) all keep `flags.riskScore` in 0..100,
leave `flags.isSuspicious` true whenever the resulting score exceeds 70, and
never clear an already-set suspicious flag. -/
theorem vlog_riskScore_invariant (log : VerificationLog) (reason : String)
    (h0 : 0 ≤ log.flags.riskScore) (_h100 : log.flags.riskScore ≤ 100)
    (_hcov : 70 < log.flags.riskScore → log.flags.isSuspicious = true) :
    (0 ≤ (vlogPreSave log).flags.riskScore ∧
      (vlogPreSave log).flags.riskScore ≤ 100 ∧
      (70 < (vlogPreSave log).flags.riskScore → (vlogPreSave log).flags.isSuspicious = true) ∧
      (log.flags.isSuspicious = true → (vlogPreSave log).flags.isSuspicious = true)) ∧
    (0 ≤ (addSuspiciousFlagStep log reason).flags.riskScore ∧
      (addSuspiciousFlagStep log reason).flags.riskScore ≤ 100 ∧
      (70 < (addSuspiciousFlagStep log reason).flags.riskScore →
        (addSuspiciousFlagStep log reason).flags.isSuspicious = true) ∧
      (log.flags.isSuspicious = true →
        (addSuspiciousFlagStep log reason).flags.isSuspicious = true)) ∧
    (0 ≤ (addSuspiciousFlag log reason).flags.riskScore ∧
      (addSuspiciousFlag log reason).flags.riskScore ≤ 100 ∧
      (70 < (addSuspiciousFlag log reason).flags.riskScore →
        (addSuspiciousFlag log reason).flags.isSuspicious = true) ∧
      (log.flags.isSuspicious = true →
        (addSuspiciousFlag log reason).flags.isSuspicious = true)) := by
  refine ⟨vlogPreSave_inv_aux log, addSuspiciousFlagStep_inv_aux log reason h0, ?_⟩
  have hstep := addSuspiciousFlagStep_inv_aux log reason h0
  have hpre := vlogPreSave_inv_aux (addSuspiciousFlagStep log reason)
  exact ⟨hpre.1, hpre.2.1, hpre.2.2.1, fun h => hpre.2.2.2 (hstep.2.2.2 h)⟩

/-- Witness for C10 at the sample log (score 0, flag unset): all three
operations keep the score within bounds. -/
theorem vlog_riskScore_invariant_witness :
    0 ≤ (addSuspiciousFlag sampleLog "signature_mismatch").flags.riskScore ∧
    (addSuspiciousFlag sampleLog "signature_mismatch").flags.riskScore ≤ 100 :=
  ⟨((vlog_riskScore_invariant sampleLog "signature_mismatch" (by decide) (by decide)
      (by decide)).2.2).1,
   ((vlog_riskScore_invariant sampleLog "signature_mismatch" (by decide) (by decide)
      (by decide)).2.2).2.1⟩

/-! ## C6 -/

@[simp] theorem vlogPreSave_rateLimit (l : VerificationLog) :
    (vlogPreSave l).rateLimit = l.rateLimit := rfl

@[simp] theorem addSuspiciousFlagStep_rateLimit (l : VerificationLog) (r : String) :
    (addSuspiciousFlagStep l r).rateLimit = l.rateLimit := rfl

@[simp] theorem addSuspiciousFlag_rateLimit (l : VerificationLog) (r : String) :
    (addSuspiciousFlag l r).rateLimit = l.rateLimit := rfl

@[simp] theorem updateRateLimit_flags (l : VerificationLog) (now ws : Int) :
    (updateRateLimit l now ws).flags = l.flags := by
  unfold updateRateLimit
  split <;> rfl

@[simp] theorem vlogPreSave_reasons (l : VerificationLog) :
    (vlogPreSave l).flags.suspiciousReasons = l.flags.suspiciousReasons := rfl

@[simp] theorem addSuspiciousFlag_reasons (l : VerificationLog) (r : String) :
    (addSuspiciousFlag l r).flags.suspiciousReasons =
      if l.flags.suspiciousReasons.contains r then l.flags.suspiciousReasons
      else l.flags.suspiciousReasons ++ [r] := rfl

theorem condFlag_rateLimit (c : Prop) [Decidable c] (l : VerificationLog) (r : String) :
    (if c then addSuspiciousFlag l r else l).rateLimit = l.rateLimit := by
  split <;> simp

theorem condFlag_not_mem (c : Prop) [Decidable c] (l : VerificationLog) (r s : String)
    (hs : s ∉ l.flags.suspiciousReasons) (hrs : r ≠ s) :
    s ∉ (if c then addSuspiciousFlag l r else l).flags.suspiciousReasons := by
  split
  · rw [addSuspiciousFlag_reasons]
    split
    · exact hs
    · intro hmem
      rcases List.mem_append.mp hmem with h | h
      · exact hs h
      · simp at h
        exact hrs h.symm
  · exact hs

theorem updateRateLimit_fresh (d : LogAttemptData) (now : Int) :
    (updateRateLimit (newVerificationLog d now) now).rateLimit =
      { attemptsInWindow := 2, windowStart := now } := by
  have hws : (newVerificationLog d now).rateLimit.windowStart = now := rfl
  unfold updateRateLimit
  rw [if_neg (by rw [hws]; omega)]
  have hatt : (newVerificationLog d now).rateLimit.attemptsInWindow = 1 := rfl
  simp only []
  rw [hatt, hws]
  norm_num

/-- C6 (amended): `updateRateLimit` increments `attemptsInWindow` when the
stored `windowStart` lies within the past 15 minutes and resets the counter
to 1 restarting the window otherwise; but because `logVerificationAttempt`
creates a brand-new log per scan (whose `windowStart` defaults to the
creation instant), every logged attempt ends with `attemptsInWindow = 2`,
attempts never accumulate across scans, and the "rate_limit_exceeded" flag
(added only when the counter exceeds 10) is unreachable through scanning. -/
theorem updateRateLimit_window_semantics (log : VerificationLog) (now : Int)
    (d : LogAttemptData) :
    (log.rateLimit.windowStart < now - 900000 →
      (updateRateLimit log now).rateLimit.attemptsInWindow = 1 ∧
      (updateRateLimit log now).rateLimit.windowStart = now) ∧
    (now - 900000 ≤ log.rateLimit.windowStart →
      (updateRateLimit log now).rateLimit.attemptsInWindow =
        log.rateLimit.attemptsInWindow + 1 ∧
      (updateRateLimit log now).rateLimit.windowStart = log.rateLimit.windowStart) ∧
    (logVerificationAttempt d now).rateLimit.attemptsInWindow = 2 ∧
    "rate_limit_exceeded" ∉ (logVerificationAttempt d now).flags.suspiciousReasons := by
  have hfresh := updateRateLimit_fresh d now
  refine ⟨?_, ?_, ?_⟩
  · intro h
    unfold updateRateLimit
    rw [if_pos h]
    exact ⟨rfl, rfl⟩
  · intro h
    unfold updateRateLimit
    rw [if_neg (by omega)]
    exact ⟨rfl, rfl⟩
  · unfold logVerificationAttempt
    set B := vlogPreSave (vlogPreSave (updateRateLimit (newVerificationLog d now) now))
      with hB
    set L3 := if strIncludes d.verificationResult.reason "signature" = true then
        addSuspiciousFlag B "signature_mismatch" else B with hL3
    set L4 := if strIncludes d.verificationResult.reason "not found" = true then
        addSuspiciousFlag L3 "multiple_failed_attempts" else L3 with hL4
    have hBrl : B.rateLimit = { attemptsInWindow := 2, windowStart := now } := by
      rw [hB, vlogPreSave_rateLimit, vlogPreSave_rateLimit, hfresh]
    have hBre : "rate_limit_exceeded" ∉ B.flags.suspiciousReasons := by
      rw [hB, vlogPreSave_reasons, vlogPreSave_reasons, updateRateLimit_flags]
      intro h
      simp [newVerificationLog] at h
    have h3rl : L3.rateLimit = { attemptsInWindow := 2, windowStart := now } := by
      rw [hL3, condFlag_rateLimit]
      exact hBrl
    have h4rl : L4.rateLimit = { attemptsInWindow := 2, windowStart := now } := by
      rw [hL4, condFlag_rateLimit]
      exact h3rl
    have h3re : "rate_limit_exceeded" ∉ L3.flags.suspiciousReasons := by
      rw [hL3]
      exact condFlag_not_mem _ _ _ _ hBre (by decide)
    have h4re : "rate_limit_exceeded" ∉ L4.flags.suspiciousReasons := by
      rw [hL4]
      exact condFlag_not_mem _ _ _ _ h3re (by decide)
    rw [if_neg (by rw [h4rl]; show ¬ (10 : Int) < 2; norm_num)]
    exact ⟨by rw [h4rl], h4re⟩

/-- Witness for C6's amended statement: at a log whose window started 16
minutes before the call, the counter resets to 1. -/
theorem updateRateLimit_window_semantics_witness :
    (updateRateLimit sampleLog 960001).rateLimit.attemptsInWindow = 1 :=
  ((updateRateLimit_window_semantics sampleLog 960001
    { verificationResult :=
        { isValid := true, canEnter := true, reason := "Ticket is valid for entry" },
      hour := 12, hasCoordinates := false }).1 (by decide)).1

/-- C6 counterexample: however many scans of the same ticket precede it
inside one 15-minute window, each call to `logVerificationAttempt` builds a
fresh log whose counter ends at 2 — never above 10, never flagged — because
the log it updates is newly created with `windowStart = Date.now()`.  The
claimed accumulation (the n-th same-window attempt reaching count n and the
flag whenever the count exceeds 10) fails at this concrete input. -/
theorem logVerificationAttempt_counterexample :
    (logVerificationAttempt cexAttempt 1000000).rateLimit.attemptsInWindow = 2 ∧
    (logVerificationAttempt cexAttempt 1000000).flags.suspiciousReasons = [] ∧
    ¬ (10 < (logVerificationAttempt cexAttempt 1000000).rateLimit.attemptsInWindow) := by
  decide

/-! ## C5 -/

/-- C5 counterexample: `StripeGateway.confirmPayment` consumes no random
draw at all — its simulated response is hard-coded `success: true` /
`status: 'succeeded'` — so at the concrete intent `pi_1`/`pm_1` there is no
draw for which the confirmation reports failure, contradicting the claim
that every simulated confirmation call has a failing draw. -/
theorem stripeConfirmPayment_counterexample :
    ¬ ∃ d : ℚ, (stripeConfirmPayment "pi_1" "pm_1" d).success = false := by
  rintro ⟨d, h⟩
  simp [stripeConfirmPayment] at h

/-- C5 (amended): `processPayment`'s `simulatePaymentProcessing` has random
success — there is a draw reporting success and a draw reporting failure,
and the outcome is independent of the payment token and amount — while the
gateway confirmation calls such as `StripeGateway.confirmPayment` are
hard-coded to report success for every input and every draw. -/
theorem simulatePayment_random_gateways_fixed :
    (∀ (tok : String) (amt : ℚ), simulatePaymentProcessing tok amt (1 / 2) = true) ∧
    (∀ (tok : String) (amt : ℚ), simulatePaymentProcessing tok amt (1 / 20) = false) ∧
    (∀ (tok tok' : String) (amt amt' d : ℚ),
      simulatePaymentProcessing tok amt d = simulatePaymentProcessing tok' amt' d) ∧
    (∀ (tok : String) (amt : ℚ),
      (processPayment "pending" tok amt (1 / 2)).success = true ∧
      (processPayment "pending" tok amt (1 / 2)).status = 200) ∧
    (∀ (tok : String) (amt : ℚ),
      (processPayment "pending" tok amt (1 / 20)).status = 400 ∧
      (processPayment "pending" tok amt (1 / 20)).message = "Payment processing failed") ∧
    (∀ (pid pm : String) (d : ℚ),
      (stripeConfirmPayment pid pm d).success = true ∧
      (stripeConfirmPayment pid pm d).status = "succeeded") := by
  have hyes : ∀ (tok : String) (amt : ℚ), simulatePaymentProcessing tok amt (1 / 2) = true := by
    intro tok amt
    unfold simulatePaymentProcessing
    simp only [decide_eq_true_eq]
    norm_num
  have hno : ∀ (tok : String) (amt : ℚ), simulatePaymentProcessing tok amt (1 / 20) = false := by
    intro tok amt
    unfold simulatePaymentProcessing
    simp only [decide_eq_false_iff_not]
    norm_num
  refine ⟨hyes, hno, fun _ _ _ _ _ => rfl,
    fun tok amt => ?_, fun tok amt => ?_, fun pid pm d => ⟨rfl, rfl⟩⟩
  · unfold processPayment
    rw [if_neg (by simp)]
    rw [if_pos (hyes tok amt)]
    exact ⟨rfl, rfl⟩
  · unfold processPayment
    rw [if_neg (by simp)]
    rw [if_neg (by rw [hno tok amt]; simp)]
    exact ⟨rfl, rfl⟩

/-! ## C8 -/

/-- The `some`-event unfolding of `bookTickets`, with the internal lets
substituted: convenient reduced form for case analysis. -/
theorem bookTickets_some (req : BookingRequest) (e : Event) (now nb : Int) :
    bookTickets req (some e) now nb =
      if req.eventId.isNone ∨ req.quantity = 0 then
        { status := 400, message := "Event ID and quantity are required",
          event := some e, bookingCreated := false, totalAmount := 0 }
      else if req.quantity < 1 ∨ 10 < req.quantity then
        { status := 400, message := "Quantity must be between 1 and 10",
          event := some e, bookingCreated := false, totalAmount := 0 }
      else if e.status ≠ "published" then
        { status := 400, message := "Event is not available for booking",
          event := some e, bookingCreated := false, totalAmount := 0 }
      else if e.date ≤ now then
        { status := 400, message := "Cannot book tickets for past events",
          event := some e, bookingCreated := false, totalAmount := 0 }
      else if e.availableTickets < req.quantity then
        { status := 400,
          message := "Only " ++ toString e.availableTickets ++ " tickets available",
          event := some e, bookingCreated := false, totalAmount := 0 }
      else if e.maxTicketsPerUser < nb + req.quantity then
        { status := 400,
          message := "You can only book up to " ++ toString e.maxTicketsPerUser
            ++ " tickets for this event",
          event := some e, bookingCreated := false, totalAmount := 0 }
      else
        { status := 201, message := "Tickets booked successfully",
          event := some { e with availableTickets := e.availableTickets - req.quantity },
          bookingCreated := true,
          totalAmount := jsRound2
            (if 0 < e.discount ∧ now < e.discountEndDate.getD e.date then
              e.price * req.quantity * (1 - e.discount / 100)
            else e.price * req.quantity) } := rfl

theorem jsRound2_eq_self (x : ℚ) (h : ∃ c : ℤ, x * 100 = c) : jsRound2 x = x := by
  rcases h with ⟨c, hc⟩
  unfold jsRound2
  rw [hc]
  have hfloor : ⌊(c : ℚ) + 1 / 2⌋ = c := by
    rw [Int.floor_int_add]
    have hhalf : ⌊(1 / 2 : ℚ)⌋ = 0 := by norm_num
    rw [hhalf, add_zero]
  rw [hfloor, ← hc, mul_div_assoc]
  norm_num

/-- C8 counterexample: the request for 11 tickets (with 20 available) is
accepted by `createBooking` but rejected by `bookTickets` with the quantity
bound, so the two handlers do not accept the same requests. -/
theorem booking_handlers_not_equivalent :
    (createBooking { eventId := some "e1", quantity := 11 } (some cexEvent)).status = 201 ∧
    (createBooking { eventId := some "e1", quantity := 11 }
      (some cexEvent)).bookingCreated = true ∧
    (bookTickets { eventId := some "e1", quantity := 11 } (some cexEvent) 1000 0).status
      = 400 ∧
    (bookTickets { eventId := some "e1", quantity := 11 } (some cexEvent) 1000
      0).bookingCreated = false ∧
    (bookTickets { eventId := some "e1", quantity := 11 } (some cexEvent) 1000 0).message
      = "Quantity must be between 1 and 10" := by
  decide

/-- The `some`-event unfolding of `createBooking`. -/
theorem createBooking_some (req : BookingRequest) (e : Event) :
    createBooking req (some e) =
      if req.eventId.isNone ∨ req.quantity = 0 ∨ req.quantity < 1 then
        { status := 400, message := "Invalid input", event := some e,
          bookingCreated := false, totalAmount := 0 }
      else if req.quantity ≤ e.availableTickets then
        { status := 201, message := "",
          event := some { e with availableTickets := e.availableTickets - req.quantity },
          bookingCreated := true, totalAmount := e.price * req.quantity }
      else
        { status := 400, message := "Not enough tickets available", event := some e,
          bookingCreated := false, totalAmount := 0 } := rfl

/-- C8 (amended): the two handlers implement the same booking operation but
are not equivalent — `bookTickets` adds the 1..10 quantity bound and the
published-status, future-date and per-user-cap checks, and applies the
discount and two-decimal rounding to the amount.  In the refinement
direction: whenever `bookTickets` accepts a request, `createBooking`
accepts it too, both decrement the event's available tickets by the same
quantity, and when no discount is active and the undiscounted total is a
whole number of cents both charge the same amount. -/
theorem bookTickets_refines_createBooking (req : BookingRequest) (e : Event)
    (now nb : Int)
    (hacc : (bookTickets req (some e) now nb).status = 201) :
    (createBooking req (some e)).status = 201 ∧
    (createBooking req (some e)).bookingCreated = true ∧
    (createBooking req (some e)).event = (bookTickets req (some e) now nb).event ∧
    (¬(0 < e.discount ∧ now < e.discountEndDate.getD e.date) →
      (∃ c : ℤ, e.price * req.quantity * 100 = c) →
      (createBooking req (some e)).totalAmount =
        (bookTickets req (some e) now nb).totalAmount) := by
  rw [bookTickets_some] at hacc ⊢
  by_cases h1 : req.eventId.isNone ∨ req.quantity = 0
  · rw [if_pos h1] at hacc; simp at hacc
  · rw [if_neg h1] at hacc ⊢
    by_cases h2 : req.quantity < 1 ∨ 10 < req.quantity
    · rw [if_pos h2] at hacc; simp at hacc
    · rw [if_neg h2] at hacc ⊢
      by_cases h3 : e.status ≠ "published"
      · rw [if_pos h3] at hacc; simp at hacc
      · rw [if_neg h3] at hacc ⊢
        by_cases h4 : e.date ≤ now
        · rw [if_pos h4] at hacc; simp at hacc
        · rw [if_neg h4] at hacc ⊢
          by_cases h5 : e.availableTickets < req.quantity
          · rw [if_pos h5] at hacc; simp at hacc
          · rw [if_neg h5] at hacc ⊢
            by_cases h6 : e.maxTicketsPerUser < nb + req.quantity
            · rw [if_pos h6] at hacc; simp at hacc
            · rw [if_neg h6] at hacc ⊢
              have hguard : ¬(req.eventId.isNone ∨ req.quantity = 0 ∨ req.quantity < 1) := by
                intro hcon
                rcases hcon with h | h | h
                · exact h1 (Or.inl h)
                · exact h1 (Or.inr h)
                · exact h2 (Or.inl h)
              have hle : req.quantity ≤ e.availableTickets := by omega
              rw [createBooking_some, if_neg hguard, if_pos hle]
              refine ⟨rfl, rfl, rfl, fun hnd hc => ?_⟩
              rw [if_neg hnd, jsRound2_eq_self _ hc]

/-- Witness for C8's amended statement: a request for two of the sample
event's five tickets is accepted by `bookTickets`, hence by `createBooking`. -/
theorem bookTickets_refines_createBooking_witness :
    (createBooking { eventId := some "ev1", quantity := 2 } (some sampleEvent)).status
      = 201 :=
  (bookTickets_refines_createBooking { eventId := some "ev1", quantity := 2 }
    sampleEvent 1000 0 (by decide)).1

/-! ## C9 -/

/-- C9 counterexample: a request with quantity 0 — outside 1..10 — is
rejected by `bookTickets` with 400 but with the message "Event ID and
quantity are required" (the falsy-quantity guard fires first), not
"Quantity must be between 1 and 10"; `validateTicketData` likewise reports
quantity 0 as a missing field. -/
theorem quantity_zero_message_counterexample :
    (bookTickets { eventId := some "e1", quantity := 0 } (some cexEvent) 1000 0).status
      = 400 ∧
    (bookTickets { eventId := some "e1", quantity := 0 } (some cexEvent) 1000 0).message
      = "Event ID and quantity are required" ∧
    (bookTickets { eventId := some "e1", quantity := 0 } (some cexEvent) 1000 0).message
      ≠ "Quantity must be between 1 and 10" ∧
    (validateTicketData cexTicketData).errors =
      some "Missing required fields: quantity" := by
  decide

/-- C9 (amended): `bookTickets` rejects every request whose quantity is
outside 1..10 with status 400 and no state change; the message is "Quantity
must be between 1 and 10" except when the quantity is 0 (JS-falsy) or the
event id is missing, where the earlier required-fields guard answers "Event
ID and quantity are required".  `validateTicketData` enforces the same 1..10
bound (with quantity 0 likewise reported as a missing field). -/
theorem bookTickets_quantity_bound (req : BookingRequest) (ev : Option Event)
    (now nb : Int) (d : TicketData)
    (hq : req.quantity < 1 ∨ 10 < req.quantity)
    (hdq : d.quantity < 1 ∨ 10 < d.quantity) :
    (bookTickets req ev now nb).status = 400 ∧
    (bookTickets req ev now nb).bookingCreated = false ∧
    (bookTickets req ev now nb).event = ev ∧
    (bookTickets req ev now nb).message =
      (if req.eventId.isNone ∨ req.quantity = 0 then "Event ID and quantity are required"
       else "Quantity must be between 1 and 10") ∧
    (validateTicketData d).isValid = false := by
  unfold bookTickets
  by_cases h1 : req.eventId.isNone ∨ req.quantity = 0
  · rw [if_pos h1]
    refine ⟨rfl, rfl, rfl, by rw [if_pos h1], ?_⟩
    unfold validateTicketData
    by_cases hm : missingFields d ≠ []
    · rw [if_pos hm]
    · rw [if_neg hm, if_pos hdq]
  · rw [if_neg h1, if_pos hq]
    refine ⟨rfl, rfl, rfl, by rw [if_neg h1], ?_⟩
    unfold validateTicketData
    by_cases hm : missingFields d ≠ []
    · rw [if_pos hm]
    · rw [if_neg hm, if_pos hdq]

/-- Witness for C9's amended statement: quantity 11 yields the quantity-bound
message. -/
theorem bookTickets_quantity_bound_witness :
    (bookTickets { eventId := some "e1", quantity := 11 } (some cexEvent) 1000 0).message
      = "Quantity must be between 1 and 10" := by
  have h := (bookTickets_quantity_bound { eventId := some "e1", quantity := 11 }
    (some cexEvent) 1000 0 { cexTicketData with quantity := 11 }
    (by decide) (by decide)).2.2.2.1
  rw [h]
  decide

/-! ## C7 -/

theorem lookupG_addToGroups (g : List (String × Nat × ℚ)) (t : TicketRec) (q : String) :
    lookupG (addToGroups g t) q =
      if t.status = q then
        match lookupG g q with
        | none => some (1, t.totalAmount)
        | some (c, a) => some (c + 1, a + t.totalAmount)
      else lookupG g q := by
  induction g with
  | nil =>
    by_cases h : t.status = q
    · simp [addToGroups, lookupG, h]
    · simp [addToGroups, lookupG, h]
  | cons p rest ih =>
    obtain ⟨s, c, a⟩ := p
    by_cases hst : s = t.status
    · subst hst
      by_cases hq : t.status = q
      · simp [addToGroups, lookupG, hq]
      · simp [addToGroups, lookupG, hq]
    · by_cases hq : s = q
      · have htq : ¬(t.status = q) := fun h => hst (hq.trans h.symm)
        have hqt : ¬(q = t.status) := fun h => htq h.symm
        simp [addToGroups, lookupG, hst, hq, htq, hqt]
      · simp [addToGroups, lookupG, hst, hq, ih]

theorem foldl_addToGroups_spec (l : List TicketRec) :
    ∀ (g : List (String × Nat × ℚ)) (s : String),
      lookupG (l.foldl addToGroups g) s =
        match lookupG g s with
        | none =>
            if statusCount l s = 0 then none else some (statusCount l s, statusSum l s)
        | some (c, a) => some (c + statusCount l s, a + statusSum l s) := by
  induction l with
  | nil =>
    intro g s
    cases h : lookupG g s with
    | none => simp [h, statusCount, statusSum]
    | some p =>
      obtain ⟨c, a⟩ := p
      simp [h, statusCount, statusSum]
  | cons t l ih =>
    intro g s
    rw [List.foldl_cons, ih (addToGroups g t) s, lookupG_addToGroups]
    by_cases hts : t.status = s
    · have hc : statusCount (t :: l) s = statusCount l s + 1 := by
        simp [statusCount, List.filter_cons, hts]
      have ha : statusSum (t :: l) s = t.totalAmount + statusSum l s := by
        simp [statusSum, List.filter_cons, hts]
      rw [if_pos hts]
      cases h : lookupG g s with
      | none =>
        simp only [h, hc, ha]
        have hne : ¬(statusCount l s + 1 = 0) := by omega
        rw [if_neg hne]
        refine congrArg some (Prod.ext ?_ ?_)
        · simp [Nat.add_comm]
        · rfl
      | some p =>
        obtain ⟨c, a⟩ := p
        simp only [h, hc, ha]
        refine congrArg some (Prod.ext ?_ ?_)
        · simp; omega
        · simp; ring
    · have hc : statusCount (t :: l) s = statusCount l s := by
        simp [statusCount, List.filter_cons, hts]
      have ha : statusSum (t :: l) s = statusSum l s := by
        simp [statusSum, List.filter_cons, hts]
      rw [if_neg hts, hc, ha]

/-- C7: the stats returned by `getEventTickets` are the grouping of ALL the
event's tickets by status — independent of the page, limit and status query
used for the returned page — and the entry reported for a status carries
exactly the number of the event's tickets with that status and the sum of
`totalAmount` over exactly those tickets; every ticket of the event is
covered by a group. -/
theorem getEventTickets_stats_partition (tickets : List TicketRec) (eid : String)
    (statusQ : Option String) (page limit : Nat) :
    (getEventTickets tickets eid statusQ page limit).stats = ticketStats tickets eid ∧
    (∀ s c a, lookupG (ticketStats tickets eid) s = some (c, a) →
      c = statusCount (tickets.filter (fun t => t.eventId = eid)) s ∧
      a = statusSum (tickets.filter (fun t => t.eventId = eid)) s ∧ 0 < c) ∧
    (∀ t ∈ tickets, t.eventId = eid →
      ∃ c a, lookupG (ticketStats tickets eid) t.status = some (c, a)) := by
  refine ⟨rfl, ?_, ?_⟩
  · intro s c a h
    unfold ticketStats at h
    rw [foldl_addToGroups_spec] at h
    simp only [lookupG] at h
    by_cases hcnt : statusCount (tickets.filter (fun t => t.eventId = eid)) s = 0
    · rw [if_pos hcnt] at h
      cases h
    · rw [if_neg hcnt] at h
      have h' := Option.some.inj h
      obtain ⟨h1, h2⟩ := Prod.mk.injEq _ _ _ _ ▸ h'
      exact ⟨h1.symm, h2.symm, by omega⟩
  · intro t ht hte
    have hmem : t ∈ tickets.filter (fun x => x.eventId = eid) := by
      rw [List.mem_filter]
      exact ⟨ht, by simp [hte]⟩
    have hcnt : 0 < statusCount (tickets.filter (fun x => x.eventId = eid)) t.status := by
      unfold statusCount
      have hmem2 : t ∈ (tickets.filter (fun x => x.eventId = eid)).filter
          (fun x => x.status = t.status) := by
        rw [List.mem_filter]
        exact ⟨hmem, by simp⟩
      exact List.length_pos.mpr (List.ne_nil_of_mem hmem2)
    refine ⟨statusCount (tickets.filter (fun x => x.eventId = eid)) t.status,
      statusSum (tickets.filter (fun x => x.eventId = eid)) t.status, ?_⟩
    unfold ticketStats
    rw [foldl_addToGroups_spec]
    simp only [lookupG]
    rw [if_neg (by omega)]

/-- Witness for C7 at a concrete ticket list: two confirmed tickets of event
`e1` (amounts 10 and 20) and one cancelled one are grouped into a confirmed
entry counting 2 with total 30. -/
theorem getEventTickets_stats_partition_witness :
    lookupG (ticketStats
      [{ eventId := "e1", status := "confirmed", totalAmount := 10, bookingDate := 1 },
       { eventId := "e1", status := "confirmed", totalAmount := 20, bookingDate := 2 },
       { eventId := "e1", status := "cancelled", totalAmount := 5, bookingDate := 3 },
       { eventId := "e2", status := "confirmed", totalAmount := 7, bookingDate := 4 }]
      "e1") "confirmed" = some (2, 30) := by
  have h := ((getEventTickets_stats_partition
    [{ eventId := "e1", status := "confirmed", totalAmount := 10, bookingDate := 1 },
     { eventId := "e1", status := "confirmed", totalAmount := 20, bookingDate := 2 },
     { eventId := "e1", status := "cancelled", totalAmount := 5, bookingDate := 3 },
     { eventId := "e2", status := "confirmed", totalAmount := 7, bookingDate := 4 }]
    "e1" none 1 20).2.2
    { eventId := "e1", status := "confirmed", totalAmount := 10, bookingDate := 1 }
    (by simp) rfl)
  obtain ⟨c, a, hca⟩ := h
  rw [hca]
  have hc := ((getEventTickets_stats_partition
    [{ eventId := "e1", status := "confirmed", totalAmount := 10, bookingDate := 1 },
     { eventId := "e1", status := "confirmed", totalAmount := 20, bookingDate := 2 },
     { eventId := "e1", status := "cancelled", totalAmount := 5, bookingDate := 3 },
     { eventId := "e2", status := "confirmed", totalAmount := 7, bookingDate := 4 }]
    "e1" none 1 20).2.1 "confirmed" c a hca)
  obtain ⟨h1, h2, _⟩ := hc
  subst h1
  subst h2
  refine congrArg some (Prod.ext ?_ ?_)
  · decide
  · simp [statusSum, List.filter_cons, List.filter_nil]
    norm_num

end EventTicketing
